import Mathlib

/-!
Shallow embedding of the posting-and-retry controller of
`src/twitter_agent.py` (class `TwitterAgent`), covering:

* `post_tweet`  (lines 137-216): the retry/backoff state machine;
* `generate_ai_tweet` (lines 218-271): AI generation with fallback;
* `post_ai_tweet` (lines 273-311): single-round delivery of a generated
  message;
* `_load_tweets` (lines 123-135): the corpus loader.

Randomness (`random.choice`, `random.uniform`) and the behaviour of the two
delivery channels (`self.api.create_tweet`, i.e. Twitter API v2, and
`self.api_v1.update_status`, i.e. API v1.1) are supplied by an `Oracle` so
that every run of the controller is a pure function of the oracle and the
corpus.  A run produces an outcome plus a trace of observable events
(channel invocations with the exact message string, sleeps with the exact
delay, retry re-selections), on which the specification's properties are
stated.

One behaviour of the source is modelled with care: at line 205 the code
evaluates `str(e)` outside every `except` block.  In Python 3 the name
bound by `except ... as e` is deleted when the except block exits, so
whenever control reaches line 205 the local `e` is unbound and the
statement raises `UnboundLocalError`, which escapes `post_tweet`.  The
embedding represents this escaping exception by the outcome
`PostOutcome.unboundLocalError`.
-/

namespace TweetForge

/-- Outcome of one call to `self.api.create_tweet` (API v2, the "rich"
channel), line 178.  `success id` models a truthy response carrying a
`data` attribute with tweet id `id`; `okNoData` models a normal return
whose response is falsy or lacks a `data` attribute (the `if response and
hasattr(response, 'data')` guard at line 180 fails and control falls
through); `rateLimited` models a raised `tweepy.errors.TooManyRequests`
(line 184); `otherError` models any other raised exception (line 188). -/
inductive Chan1Res where
  | success (id : Nat)
  | okNoData
  | rateLimited
  | otherError
deriving DecidableEq

/-- Outcome of one call to `self.api_v1.update_status` (API v1.1, the
"legacy" channel), line 194.  A normal return is a success whose status
object carries `id`; `rateLimited` models `TooManyRequests` (line 197);
`otherError` models any other exception (line 201). -/
inductive Chan2Res where
  | success (id : Nat)
  | rateLimited
  | otherError
deriving DecidableEq

/-- Observable events of one controller run: `sleep r d` is the
`time.sleep(backoff_time)` at line 159 in retry round `r`; `select r m` is
the re-selection `tweet = random.choice(available_tweets)` at line 168 in
retry round `r`; `attempt c m` is an invocation of channel `c` (1 = API
v2 `create_tweet`, 2 = API v1.1 `update_status`) with message `m`. -/
inductive Event where
  | sleep (retry : Nat) (delay : ℚ)
  | select (retry : Nat) (msg : String)
  | attempt (channel : Nat) (msg : String)
deriving DecidableEq

/-- Result of one `post_tweet` call.  `success c id m`: the `return` at
line 183 or 196 after channel `c` accepted message `m`; `noTweets`: the
early return at line 141 when the corpus is empty; `exhausted`: the loop
at line 154 ran out of iterations (every round rate-limited) and the
function returned after the error logging at lines 209-216;
`unboundLocalError`: control reached line 205 where `str(e)` references
the unbound local `e`, so the exception escapes the call. -/
inductive PostOutcome where
  | success (channel : Nat) (id : Nat) (msg : String)
  | noTweets
  | exhausted
  | unboundLocalError
deriving DecidableEq

/-- Environment of a run: `pick r` is the index drawn by the
`random.choice` call of round `r` (reduced mod the length of the list
being chosen from); `jitter r` is the `random.uniform(0, 10)` sample of
retry round `r` (line 157); `chan1 r` and `chan2 r` are the behaviours of
the two delivery channels in round `r`. -/
structure Oracle where
  pick : Nat → Nat
  jitter : Nat → ℚ
  chan1 : Nat → Chan1Res
  chan2 : Nat → Chan2Res

/-- Default `max_retries` (line 151). -/
def maxRetries : Nat := 5

/-- Default `initial_backoff` in seconds (line 152). -/
def initialBackoff : ℚ := 60

/-- Upper bound of the `random.uniform(0, 10)` jitter (line 157). -/
def jitterMax : ℚ := 10

/-- Models `random.choice(l)` on a list known to be nonempty at the call
site, with the oracle's draw `k` reduced mod the length.  (Every
`random.choice` in `post_tweet` is guarded: line 139 guards the initial
choice, and lines 163-166 reset `available_tweets` to the full corpus
before the retry choice.) -/
def chooseFrom (l : List String) (k : Nat) : String :=
  l.getD (k % l.length) ""

/-- Lines 161-169 of `post_tweet`: compute
`available_tweets = [t for t in self.tweets if t not in used_tweets]`;
if empty, reset `used_tweets = set()` and choose from the whole corpus;
otherwise choose from `available_tweets`; finally `used_tweets.add(tweet)`.
Returns the chosen tweet and the updated used set (as a list with set
membership semantics). -/
def selectRetry (tweets used : List String) (k : Nat) : String × List String :=
  if (tweets.filter (fun t => !(used.contains t))).isEmpty then
    (chooseFrom tweets k, List.insert (chooseFrom tweets k) [])
  else
    (chooseFrom (tweets.filter (fun t => !(used.contains t))) k,
      List.insert (chooseFrom (tweets.filter (fun t => !(used.contains t))) k)
        used)

/-- Backoff delay of retry round `r` (line 157):
`initial_backoff * (2 ** (retry - 1)) + random.uniform(0, 10)`, the jitter
sample being `j`. -/
def backoffTime (r : Nat) (j : ℚ) : ℚ :=
  initialBackoff * 2 ^ (r - 1) + j

/-- Lines 155-170: the `if retry > 0:` block.  For round 0 it is a no-op;
for a retry round it sleeps the backoff delay and re-selects the tweet.
Returns the (possibly new) tweet, the updated used set, and the emitted
events. -/
def retryStart (o : Oracle) (tweets : List String) (r : Nat)
    (tweet : String) (used : List String) :
    String × List String × List Event :=
  if r = 0 then (tweet, used, [])
  else
    ((selectRetry tweets used (o.pick r)).1,
      (selectRetry tweets used (o.pick r)).2,
      [Event.sleep r (backoffTime r (o.jitter r)),
        Event.select r (selectRetry tweets used (o.pick r)).1])

/-- Result of the channel loop of one round: `posted c id` means channel
`c` accepted the message and the function returns; `limited` means a
`TooManyRequests` was raised and the `continue` at line 187 or 200 moves
to the next retry round; `unboundE` means both channels failed without a
rate limit, so control reaches line 205 where the unbound `e` raises. -/
inductive RoundRes where
  | posted (channel : Nat) (id : Nat)
  | limited
  | unboundE
deriving DecidableEq

/-- Lines 176-206: one pass through the two delivery methods with the
current `tweet`.  Method 1 (`create_tweet`): on a truthy response with
`data`, return success; on `TooManyRequests`, `continue`; on a falsy /
data-less response or any other exception, fall through to Method 2.
Method 2 (`update_status`): on normal return, success; on
`TooManyRequests`, `continue`; on any other exception fall to line 205,
where `str(e)` raises `UnboundLocalError`. -/
def deliverRound (o : Oracle) (r : Nat) (tweet : String) :
    RoundRes × List Event :=
  match o.chan1 r with
  | Chan1Res.success id => (RoundRes.posted 1 id, [Event.attempt 1 tweet])
  | Chan1Res.rateLimited => (RoundRes.limited, [Event.attempt 1 tweet])
  | Chan1Res.okNoData | Chan1Res.otherError =>
      match o.chan2 r with
      | Chan2Res.success id =>
          (RoundRes.posted 2 id, [Event.attempt 1 tweet, Event.attempt 2 tweet])
      | Chan2Res.rateLimited =>
          (RoundRes.limited, [Event.attempt 1 tweet, Event.attempt 2 tweet])
      | Chan2Res.otherError =>
          (RoundRes.unboundE, [Event.attempt 1 tweet, Event.attempt 2 tweet])

/-- The body of `for retry in range(max_retries + 1):` (lines 154-206),
with `fuel` the number of iterations left, `r` the current value of
`retry`, and `evs` the events emitted so far.  When fuel runs out the loop
has completed every iteration via rate-limit `continue`s and the function
falls to the error logging at lines 209-216 and returns. -/
def postTweetAux (o : Oracle) (tweets : List String) :
    Nat → Nat → String → List String → List Event → PostOutcome × List Event
  | 0, _, _, _, evs => (PostOutcome.exhausted, evs)
  | fuel + 1, r, tweet, used, evs =>
      match (deliverRound o r (retryStart o tweets r tweet used).1).1 with
      | RoundRes.posted c id =>
          (PostOutcome.success c id (retryStart o tweets r tweet used).1,
            evs ++ (retryStart o tweets r tweet used).2.2
              ++ (deliverRound o r (retryStart o tweets r tweet used).1).2)
      | RoundRes.unboundE =>
          (PostOutcome.unboundLocalError,
            evs ++ (retryStart o tweets r tweet used).2.2
              ++ (deliverRound o r (retryStart o tweets r tweet used).1).2)
      | RoundRes.limited =>
          postTweetAux o tweets fuel (r + 1)
            (retryStart o tweets r tweet used).1
            (retryStart o tweets r tweet used).2.1
            (evs ++ (retryStart o tweets r tweet used).2.2
              ++ (deliverRound o r (retryStart o tweets r tweet used).1).2)

/-- `post_tweet` (lines 137-216): early return when the corpus is empty
(lines 139-141); otherwise pick the initial tweet (line 144), initialise
`used_tweets = {tweet}` (lines 145-146), and run the retry loop. -/
def postTweet (o : Oracle) (tweets : List String) : PostOutcome × List Event :=
  if tweets.isEmpty then (PostOutcome.noTweets, [])
  else
    postTweetAux o tweets (maxRetries + 1) 0 (chooseFrom tweets (o.pick 0))
      (List.insert (chooseFrom tweets (o.pick 0)) []) []

/-- Outcome of the generative backend call at lines 249-259:
`ok content` is a well-formed response whose first choice's message
content is `content`; `err` is any raised exception (backend unavailable,
network error, malformed response whose field access raises, ...). -/
inductive GenOutcome where
  | ok (content : String)
  | err
deriving DecidableEq

/-- Models Python `str.strip()`: drop leading and trailing whitespace.
(Defined structurally over the character list so that concrete runs
evaluate; `String.trim` differs only in the exact whitespace set.) -/
def stripWs (s : String) : String :=
  String.mk
    (((s.data.dropWhile Char.isWhitespace).reverse.dropWhile
      Char.isWhitespace).reverse)

/-- Lines 262-264 of `generate_ai_tweet`: truncate to 277 characters plus
an ellipsis when the text exceeds 280 characters. -/
def truncate280 (s : String) : String :=
  if s.length > 280 then String.mk (s.data.take 277) ++ "..." else s

/-- Models `random.choice(self.tweets)` used as the fallback at lines 229
and 271: on an empty corpus `random.choice` raises `IndexError` (modelled
as `none`), otherwise it returns a corpus member. -/
def fallbackChoice (tweets : List String) (k : Nat) : Option String :=
  if tweets.isEmpty then none else some (chooseFrom tweets k)

/-- `generate_ai_tweet` (lines 218-271): if the OpenAI client is not
available, fall back to a corpus choice (lines 227-229); otherwise call
the backend: on a well-formed response, strip and truncate the content
(lines 259-266); on any exception, fall back to a corpus choice
(lines 268-271).  `none` models an exception escaping the call (only the
`IndexError` of `random.choice` on an empty corpus). -/
def generateAiTweet (clientAvailable : Bool) (backend : GenOutcome)
    (tweets : List String) (k : Nat) : Option String :=
  if !clientAvailable then fallbackChoice tweets k
  else
    match backend with
    | GenOutcome.ok content => some (truncate280 (stripWs content))
    | GenOutcome.err => fallbackChoice tweets k

/-- Result of one `post_ai_tweet` call: channel success (line 297 or 306)
or the all-methods-failed return after line 311. -/
inductive AiOutcome where
  | success (channel : Nat) (id : Nat) (msg : String)
  | allFailed (msg : String)
deriving DecidableEq

/-- `post_ai_tweet` (lines 273-311): generate a tweet, then try Method 1
and Method 2 once each, with no retry loop and no backoff.  Both methods
catch every exception with a bare `except Exception` (lines 298, 307), so
a rate-limited channel is treated exactly like any other failure: Method 2
is still tried with the same message.  `none` models the `IndexError`
escaping from the generation fallback on an empty corpus. -/
def postAiTweet (o : Oracle) (clientAvailable : Bool) (backend : GenOutcome)
    (tweets : List String) : Option (AiOutcome × List Event) :=
  match generateAiTweet clientAvailable backend tweets (o.pick 0) with
  | none => none
  | some tweet =>
      match o.chan1 0 with
      | Chan1Res.success id =>
          some (AiOutcome.success 1 id tweet, [Event.attempt 1 tweet])
      | Chan1Res.okNoData | Chan1Res.rateLimited | Chan1Res.otherError =>
          match o.chan2 0 with
          | Chan2Res.success id =>
              some (AiOutcome.success 2 id tweet,
                [Event.attempt 1 tweet, Event.attempt 2 tweet])
          | Chan2Res.rateLimited | Chan2Res.otherError =>
              some (AiOutcome.allFailed tweet,
                [Event.attempt 1 tweet, Event.attempt 2 tweet])

/-- Result of `_load_tweets` (lines 123-135): the loaded corpus, or the
re-raised `FileNotFoundError`. -/
inductive LoadResult where
  | ok (tweets : List String)
  | fileNotFound
deriving DecidableEq

/-- `_load_tweets` (lines 123-135): read the file's lines, keep each
stripped line that is nonempty (`[line.strip() for line in f if
line.strip()]`).  An empty result is only logged as a warning and returned
as is (lines 129-132); a missing file re-raises (lines 133-135).  The
input is `none` when the file is missing, `some lines` otherwise. -/
def loadTweets (file : Option (List String)) : LoadResult :=
  match file with
  | none => LoadResult.fileNotFound
  | some lines =>
      LoadResult.ok (lines.filterMap
        (fun l => if stripWs l = "" then none else some (stripWs l)))

/-- Recognises the `attempt 1 _` event that begins every delivery round
(Method 1 is invoked exactly once per round). -/
def isFirstAttempt : Event → Bool
  | Event.attempt 1 _ => true
  | _ => false

/-- Number of delivery rounds recorded in a trace: each round invokes
channel 1 exactly once. -/
def countRounds (evs : List Event) : Nat :=
  (evs.filter isFirstAttempt).length

/-- Boolean test: does the trace contain a sleep of retry round `r`?
(It inspects only the round index, never the delay value.) -/
def hasSleep (r : Nat) (evs : List Event) : Bool :=
  evs.any (fun e =>
    match e with
    | Event.sleep i _ => i == r
    | _ => false)

/-- Boolean test: does the trace contain any sleep at all? -/
def hasAnySleep (evs : List Event) : Bool :=
  evs.any (fun e =>
    match e with
    | Event.sleep _ _ => true
    | _ => false)

/-- Concrete run environment: both channels always fail with a
non-rate-limit exception (the AuthError scenario of the specification). -/
def oBothAuthFail : Oracle :=
  ⟨fun _ => 0, fun _ => 0, fun _ => Chan1Res.otherError,
    fun _ => Chan2Res.otherError⟩

/-- Concrete run environment: channel 1 is always rate-limited; the draws
select index 0 except in retry round 2, where they select index 1. -/
def oAllLimited : Oracle :=
  ⟨fun r => if r = 2 then 1 else 0, fun _ => 0,
    fun _ => Chan1Res.rateLimited, fun _ => Chan2Res.otherError⟩

/-- Concrete run environment: channel 1 returns normally with a falsy or
data-less response; channel 2 succeeds with id 7. -/
def oNoData : Oracle :=
  ⟨fun _ => 0, fun _ => 0, fun _ => Chan1Res.okNoData,
    fun _ => Chan2Res.success 7⟩

/-- Concrete run environment: channel 1 always rate-limited, jitter
sample 5 in every retry round. -/
def oLimJitter : Oracle :=
  ⟨fun _ => 0, fun _ => 5, fun _ => Chan1Res.rateLimited,
    fun _ => Chan2Res.otherError⟩

/-- Concrete run environment: channel 1 succeeds immediately with id 1. -/
def oFirstOk : Oracle :=
  ⟨fun _ => 0, fun _ => 0, fun _ => Chan1Res.success 1,
    fun _ => Chan2Res.otherError⟩

/-- Concrete run environment: channel 1 always fails with a non-rate-limit
error and channel 2 (the legacy channel) is always rate-limited. -/
def oLegacyLimited : Oracle :=
  ⟨fun _ => 0, fun _ => 0, fun _ => Chan1Res.otherError,
    fun _ => Chan2Res.rateLimited⟩

/-- A corpus entry of 281 characters (one over the platform limit). -/
def longTweet : String := String.mk (List.replicate 281 'a')

/-! Section: Basic lemmas about selection -/

theorem chooseFrom_mem (l : List String) (k : Nat) (h : l ≠ []) :
    chooseFrom l k ∈ l := by
  have hlen : 0 < l.length := List.length_pos.mpr h
  have hk : k % l.length < l.length := Nat.mod_lt _ hlen
  unfold chooseFrom
  rw [List.getD_eq_getElem l "" hk]
  exact List.getElem_mem hk

theorem selectRetry_mem (tweets used : List String) (k : Nat)
    (h : tweets ≠ []) : (selectRetry tweets used k).1 ∈ tweets := by
  unfold selectRetry
  by_cases hav : (tweets.filter (fun t => !(used.contains t))).isEmpty
  · simp only [hav, if_pos]
    exact chooseFrom_mem tweets k h
  · simp only [hav, if_neg, Bool.false_eq_true, not_false_iff]
    have hne : tweets.filter (fun t => !(used.contains t)) ≠ [] := by
      simpa [List.isEmpty_iff] using hav
    exact List.mem_of_mem_filter (chooseFrom_mem _ k hne)

theorem selectRetry_not_mem (tweets used : List String) (k : Nat)
    (h : ∃ t ∈ tweets, t ∉ used) : (selectRetry tweets used k).1 ∉ used := by
  obtain ⟨t, htw, htu⟩ := h
  have htav : t ∈ tweets.filter (fun t => !(used.contains t)) := by
    simp [List.mem_filter, htw, htu]
  have hne : tweets.filter (fun t => !(used.contains t)) ≠ [] := by
    intro hnil
    rw [hnil] at htav
    exact List.not_mem_nil t htav
  have hav : (tweets.filter (fun t => !(used.contains t))).isEmpty = false := by
    simpa [List.isEmpty_iff] using hne
  unfold selectRetry
  simp only [hav, Bool.false_eq_true, if_neg, not_false_iff]
  have hmem := chooseFrom_mem _ k hne
  have := (List.mem_filter.mp hmem).2
  simpa using this

theorem selectRetry_covered (tweets used : List String) (k : Nat)
    (h : ∀ t ∈ tweets, t ∈ used) :
    (selectRetry tweets used k).2 = [(selectRetry tweets used k).1] := by
  have hav : (tweets.filter (fun t => !(used.contains t))).isEmpty = true := by
    simp only [List.isEmpty_iff, List.filter_eq_nil_iff]
    intro t ht
    simp [h t ht]
  unfold selectRetry
  rw [if_pos hav]
  simp [List.insert]

theorem selectRetry_self_mem (tweets used : List String) (k : Nat) :
    (selectRetry tweets used k).1 ∈ (selectRetry tweets used k).2 := by
  unfold selectRetry
  cases hav : (tweets.filter (fun t => !(used.contains t))).isEmpty
  · simp only [Bool.false_eq_true, if_false]
    exact List.mem_insert_self _ _
  · simp [List.insert]

/-! Section: Lemmas about one delivery round -/

theorem deliverRound_of_rateLimited (o : Oracle) (r : Nat) (t : String)
    (h : o.chan1 r = Chan1Res.rateLimited) :
    deliverRound o r t = (RoundRes.limited, [Event.attempt 1 t]) := by
  simp [deliverRound, h]

theorem deliverRound_events (o : Oracle) (r : Nat) (t : String) :
    (deliverRound o r t).2 = [Event.attempt 1 t] ∨
      (deliverRound o r t).2 = [Event.attempt 1 t, Event.attempt 2 t] := by
  unfold deliverRound
  cases o.chan1 r <;> try simp
  all_goals cases o.chan2 r <;> simp

theorem deliverRound_no_sleep (o : Oracle) (r : Nat) (t : String)
    (i : Nat) (d : ℚ) : Event.sleep i d ∉ (deliverRound o r t).2 := by
  rcases deliverRound_events o r t with h | h <;> simp [h]

theorem deliverRound_attempt_msg (o : Oracle) (r : Nat) (t : String)
    (c : Nat) (m : String) (h : Event.attempt c m ∈ (deliverRound o r t).2) :
    m = t := by
  rcases deliverRound_events o r t with he | he <;> rw [he] at h <;>
    simp at h <;> tauto

theorem deliverRound_countRounds (o : Oracle) (r : Nat) (t : String) :
    countRounds (deliverRound o r t).2 = 1 := by
  rcases deliverRound_events o r t with h | h <;>
    simp [h, countRounds, isFirstAttempt]

/-! Section: Lemmas about the start of a retry round -/

theorem retryStart_zero (o : Oracle) (tweets : List String) (tweet : String)
    (used : List String) :
    retryStart o tweets 0 tweet used = (tweet, used, []) := by
  simp [retryStart]

theorem retryStart_pos (o : Oracle) (tweets : List String) (r : Nat)
    (tweet : String) (used : List String) (h : r ≠ 0) :
    retryStart o tweets r tweet used =
      ((selectRetry tweets used (o.pick r)).1,
        (selectRetry tweets used (o.pick r)).2,
        [Event.sleep r (backoffTime r (o.jitter r)),
          Event.select r (selectRetry tweets used (o.pick r)).1]) := by
  simp [retryStart, h]

theorem retryStart_mem (o : Oracle) (tweets : List String) (r : Nat)
    (tweet : String) (used : List String) (hne : tweets ≠ [])
    (htw : tweet ∈ tweets) :
    (retryStart o tweets r tweet used).1 ∈ tweets := by
  by_cases h : r = 0
  · subst h; rw [retryStart_zero]; exact htw
  · rw [retryStart_pos o tweets r tweet used h]
    exact selectRetry_mem tweets used (o.pick r) hne

theorem retryStart_sleep (o : Oracle) (tweets : List String) (r : Nat)
    (tweet : String) (used : List String) (i : Nat) (d : ℚ)
    (h : Event.sleep i d ∈ (retryStart o tweets r tweet used).2.2) :
    1 ≤ i ∧ d = backoffTime i (o.jitter i) := by
  by_cases hr : r = 0
  · subst hr; rw [retryStart_zero] at h; simp at h
  · rw [retryStart_pos o tweets r tweet used hr] at h
    simp at h
    obtain ⟨hi, hd⟩ := h
    subst hi
    exact ⟨Nat.one_le_iff_ne_zero.mpr hr, hd⟩

theorem retryStart_countRounds (o : Oracle) (tweets : List String) (r : Nat)
    (tweet : String) (used : List String) :
    countRounds (retryStart o tweets r tweet used).2.2 = 0 := by
  by_cases hr : r = 0
  · subst hr; rw [retryStart_zero]; rfl
  · rw [retryStart_pos o tweets r tweet used hr]
    simp [countRounds, isFirstAttempt]

theorem countRounds_append (a b : List Event) :
    countRounds (a ++ b) = countRounds a + countRounds b := by
  simp [countRounds, List.filter_append]

/-! Section: Invariants of the retry loop -/

theorem postTweetAux_mem (o : Oracle) (tweets : List String) :
    ∀ (fuel r : Nat) (tweet : String) (used : List String)
      (evs : List Event) (e : Event), e ∈ evs →
      e ∈ (postTweetAux o tweets fuel r tweet used evs).2 := by
  intro fuel
  induction fuel with
  | zero =>
      intro r tweet used evs e he
      simpa [postTweetAux] using he
  | succ n ih =>
      intro r tweet used evs e he
      simp only [postTweetAux]
      cases hd : (deliverRound o r (retryStart o tweets r tweet used).1).1 with
      | posted c id => simp [he]
      | unboundE => simp [he]
      | limited => exact ih _ _ _ _ e (by simp [he])

theorem postTweetAux_countRounds (o : Oracle) (tweets : List String) :
    ∀ (fuel r : Nat) (tweet : String) (used : List String)
      (evs : List Event),
      countRounds (postTweetAux o tweets fuel r tweet used evs).2 ≤
        countRounds evs + fuel := by
  intro fuel
  induction fuel with
  | zero =>
      intro r tweet used evs
      simp [postTweetAux]
  | succ n ih =>
      intro r tweet used evs
      simp only [postTweetAux]
      cases hd : (deliverRound o r (retryStart o tweets r tweet used).1).1 with
      | posted c id =>
          simp only [countRounds_append, retryStart_countRounds,
            deliverRound_countRounds]
          omega
      | unboundE =>
          simp only [countRounds_append, retryStart_countRounds,
            deliverRound_countRounds]
          omega
      | limited =>
          refine le_trans (ih _ _ _ _) ?_
          simp only [countRounds_append, retryStart_countRounds,
            deliverRound_countRounds]
          omega

theorem postTweetAux_sleep (o : Oracle) (tweets : List String) :
    ∀ (fuel r : Nat) (tweet : String) (used : List String)
      (evs : List Event),
      (∀ i d, Event.sleep i d ∈ evs →
        1 ≤ i ∧ d = backoffTime i (o.jitter i)) →
      ∀ i d, Event.sleep i d ∈ (postTweetAux o tweets fuel r tweet used evs).2 →
        1 ≤ i ∧ d = backoffTime i (o.jitter i) := by
  intro fuel
  induction fuel with
  | zero =>
      intro r tweet used evs hevs i d hmem
      rw [show (postTweetAux o tweets 0 r tweet used evs) =
        (PostOutcome.exhausted, evs) from rfl] at hmem
      exact hevs i d hmem
  | succ n ih =>
      intro r tweet used evs hevs i d hmem
      have hstep : ∀ i d,
          Event.sleep i d ∈ evs ++ (retryStart o tweets r tweet used).2.2
            ++ (deliverRound o r (retryStart o tweets r tweet used).1).2 →
          1 ≤ i ∧ d = backoffTime i (o.jitter i) := by
        intro i d hm
        rcases List.mem_append.mp hm with hm | hm
        · rcases List.mem_append.mp hm with hm | hm
          · exact hevs i d hm
          · exact retryStart_sleep o tweets r tweet used i d hm
        · exact absurd hm (deliverRound_no_sleep o r _ i d)
      rw [show (postTweetAux o tweets (n + 1) r tweet used evs) =
        (match (deliverRound o r (retryStart o tweets r tweet used).1).1 with
          | RoundRes.posted c id =>
              (PostOutcome.success c id (retryStart o tweets r tweet used).1,
                evs ++ (retryStart o tweets r tweet used).2.2
                  ++ (deliverRound o r (retryStart o tweets r tweet used).1).2)
          | RoundRes.unboundE =>
              (PostOutcome.unboundLocalError,
                evs ++ (retryStart o tweets r tweet used).2.2
                  ++ (deliverRound o r (retryStart o tweets r tweet used).1).2)
          | RoundRes.limited =>
              postTweetAux o tweets n (r + 1)
                (retryStart o tweets r tweet used).1
                (retryStart o tweets r tweet used).2.1
                (evs ++ (retryStart o tweets r tweet used).2.2
                  ++ (deliverRound o r (retryStart o tweets r tweet used).1).2))
        from rfl] at hmem
      cases hd : (deliverRound o r (retryStart o tweets r tweet used).1).1 with
      | posted c id =>
          rw [hd] at hmem
          exact hstep i d hmem
      | unboundE =>
          rw [hd] at hmem
          exact hstep i d hmem
      | limited =>
          rw [hd] at hmem
          exact ih _ _ _ _ hstep i d hmem

theorem postTweetAux_attempt (o : Oracle) (tweets : List String)
    (hne : tweets ≠ []) :
    ∀ (fuel r : Nat) (tweet : String) (used : List String)
      (evs : List Event), tweet ∈ tweets →
      (∀ c m, Event.attempt c m ∈ evs → m ∈ tweets) →
      ∀ c m,
        Event.attempt c m ∈ (postTweetAux o tweets fuel r tweet used evs).2 →
        m ∈ tweets := by
  intro fuel
  induction fuel with
  | zero =>
      intro r tweet used evs htw hevs c m hmem
      rw [show (postTweetAux o tweets 0 r tweet used evs) =
        (PostOutcome.exhausted, evs) from rfl] at hmem
      exact hevs c m hmem
  | succ n ih =>
      intro r tweet used evs htw hevs c m hmem
      have hcur : (retryStart o tweets r tweet used).1 ∈ tweets :=
        retryStart_mem o tweets r tweet used hne htw
      have hstep : ∀ c m,
          Event.attempt c m ∈ evs ++ (retryStart o tweets r tweet used).2.2
            ++ (deliverRound o r (retryStart o tweets r tweet used).1).2 →
          m ∈ tweets := by
        intro c m hm
        rcases List.mem_append.mp hm with hm | hm
        · rcases List.mem_append.mp hm with hm | hm
          · exact hevs c m hm
          · exfalso
            by_cases hr : r = 0
            · subst hr; rw [retryStart_zero] at hm; simp at hm
            · rw [retryStart_pos o tweets r tweet used hr] at hm
              simp at hm
        · rw [deliverRound_attempt_msg o r _ c m hm]
          exact hcur
      rw [show (postTweetAux o tweets (n + 1) r tweet used evs) =
        (match (deliverRound o r (retryStart o tweets r tweet used).1).1 with
          | RoundRes.posted c id =>
              (PostOutcome.success c id (retryStart o tweets r tweet used).1,
                evs ++ (retryStart o tweets r tweet used).2.2
                  ++ (deliverRound o r (retryStart o tweets r tweet used).1).2)
          | RoundRes.unboundE =>
              (PostOutcome.unboundLocalError,
                evs ++ (retryStart o tweets r tweet used).2.2
                  ++ (deliverRound o r (retryStart o tweets r tweet used).1).2)
          | RoundRes.limited =>
              postTweetAux o tweets n (r + 1)
                (retryStart o tweets r tweet used).1
                (retryStart o tweets r tweet used).2.1
                (evs ++ (retryStart o tweets r tweet used).2.2
                  ++ (deliverRound o r (retryStart o tweets r tweet used).1).2))
        from rfl] at hmem
      cases hd : (deliverRound o r (retryStart o tweets r tweet used).1).1 with
      | posted c1 id =>
          rw [hd] at hmem
          exact hstep c m hmem
      | unboundE =>
          rw [hd] at hmem
          exact hstep c m hmem
      | limited =>
          rw [hd] at hmem
          exact ih _ _ _ _ hcur hstep c m hmem

theorem postTweetAux_succ (o : Oracle) (tweets : List String) (fuel r : Nat)
    (tweet : String) (used : List String) (evs : List Event) :
    postTweetAux o tweets (fuel + 1) r tweet used evs =
      match (deliverRound o r (retryStart o tweets r tweet used).1).1 with
      | RoundRes.posted c id =>
          (PostOutcome.success c id (retryStart o tweets r tweet used).1,
            evs ++ (retryStart o tweets r tweet used).2.2
              ++ (deliverRound o r (retryStart o tweets r tweet used).1).2)
      | RoundRes.unboundE =>
          (PostOutcome.unboundLocalError,
            evs ++ (retryStart o tweets r tweet used).2.2
              ++ (deliverRound o r (retryStart o tweets r tweet used).1).2)
      | RoundRes.limited =>
          postTweetAux o tweets fuel (r + 1)
            (retryStart o tweets r tweet used).1
            (retryStart o tweets r tweet used).2.1
            (evs ++ (retryStart o tweets r tweet used).2.2
              ++ (deliverRound o r (retryStart o tweets r tweet used).1).2) :=
  rfl

theorem postTweetAux_step_limited (o : Oracle) (tweets : List String)
    (fuel r : Nat) (tweet : String) (used : List String) (evs : List Event)
    (hd : (deliverRound o r (retryStart o tweets r tweet used).1).1 =
      RoundRes.limited) :
    postTweetAux o tweets (fuel + 1) r tweet used evs =
      postTweetAux o tweets fuel (r + 1)
        (retryStart o tweets r tweet used).1
        (retryStart o tweets r tweet used).2.1
        (evs ++ (retryStart o tweets r tweet used).2.2
          ++ (deliverRound o r (retryStart o tweets r tweet used).1).2) := by
  rw [postTweetAux_succ, hd]

theorem sleep_one_mem_aux (o : Oracle) (tweets : List String) (fuel : Nat)
    (tweet : String) (used : List String) (evs : List Event) :
    Event.sleep 1 (backoffTime 1 (o.jitter 1)) ∈
      (postTweetAux o tweets (fuel + 1) 1 tweet used evs).2 := by
  have hpre : Event.sleep 1 (backoffTime 1 (o.jitter 1)) ∈
      (retryStart o tweets 1 tweet used).2.2 := by
    rw [retryStart_pos o tweets 1 tweet used one_ne_zero]
    simp
  rw [postTweetAux_succ]
  cases hd : (deliverRound o 1 (retryStart o tweets 1 tweet used).1).1 with
  | posted c id => simp [List.mem_append, hpre]
  | unboundE => simp [List.mem_append, hpre]
  | limited =>
      exact postTweetAux_mem o tweets fuel 2 _ _ _ _
        (by simp [List.mem_append, hpre])

/-! Section: Lemmas about generation -/

theorem truncate280_length (s : String) : (truncate280 s).length ≤ 280 := by
  unfold truncate280
  split
  case isTrue h =>
    have hmk : (String.mk (s.data.take 277)).length = (s.data.take 277).length :=
      rfl
    have htk : (s.data.take 277).length = min 277 s.data.length :=
      List.length_take _ _
    have hdots : ("..." : String).length = 3 := rfl
    have hds : s.length = s.data.length := rfl
    rw [String.length_append, hmk, htk, hdots]
    omega
  case isFalse h => omega

theorem generateAiTweet_some_length (ca : Bool) (g : GenOutcome)
    (tweets : List String) (k : Nat) (m : String)
    (hcorp : ∀ t ∈ tweets, t.length ≤ 280)
    (h : generateAiTweet ca g tweets k = some m) : m.length ≤ 280 := by
  have hfb : ∀ m0, fallbackChoice tweets k = some m0 → m0.length ≤ 280 := by
    intro m0 h0
    unfold fallbackChoice at h0
    cases hE : tweets.isEmpty
    · rw [if_neg (by simp [hE])] at h0
      have hne : tweets ≠ [] := by simpa [List.isEmpty_iff] using hE
      have := chooseFrom_mem tweets k hne
      exact Option.some_injective _ h0 ▸ hcorp _ this
    · rw [if_pos hE] at h0
      exact absurd h0 (by simp)
  cases ca
  · exact hfb m (by simpa [generateAiTweet] using h)
  · cases g with
    | ok content =>
        have hm : m = truncate280 (stripWs content) := by
          simpa [generateAiTweet] using h.symm
        rw [hm]
        exact truncate280_length _
    | err => exact hfb m (by simpa [generateAiTweet] using h)

theorem postAiTweet_attempt_gen (o : Oracle) (ca : Bool) (g : GenOutcome)
    (tweets : List String) (res : AiOutcome × List Event) (c : Nat)
    (m : String) (hres : postAiTweet o ca g tweets = some res)
    (hm : Event.attempt c m ∈ res.2) :
    generateAiTweet ca g tweets (o.pick 0) = some m := by
  unfold postAiTweet at hres
  cases hg : generateAiTweet ca g tweets (o.pick 0) with
  | none => rw [hg] at hres; exact absurd hres (by simp)
  | some t =>
      rw [hg] at hres
      have hmt : m = t := by
        cases h1 : o.chan1 0 with
        | success id =>
            rw [h1] at hres
            obtain rfl : _ = res := Option.some_injective _ hres
            simp at hm
            exact hm.2
        | okNoData =>
            rw [h1] at hres
            cases h2 : o.chan2 0 <;> rw [h2] at hres <;>
              · obtain rfl : _ = res := Option.some_injective _ hres
                simp at hm
                tauto
        | rateLimited =>
            rw [h1] at hres
            cases h2 : o.chan2 0 <;> rw [h2] at hres <;>
              · obtain rfl : _ = res := Option.some_injective _ hres
                simp at hm
                tauto
        | otherError =>
            rw [h1] at hres
            cases h2 : o.chan2 0 <;> rw [h2] at hres <;>
              · obtain rfl : _ = res := Option.some_injective _ hres
                simp at hm
                tauto
      rw [hmt]

theorem generateAiTweet_shape (ca : Bool) (g : GenOutcome)
    (tweets : List String) (k : Nat) (m : String)
    (h : generateAiTweet ca g tweets k = some m) :
    m ∈ tweets ∨ ∃ s, m = truncate280 (stripWs s) := by
  have hfb : fallbackChoice tweets k = some m → m ∈ tweets := by
    intro h0
    unfold fallbackChoice at h0
    cases hE : tweets.isEmpty
    · rw [if_neg (by simp [hE])] at h0
      have hne : tweets ≠ [] := by simpa [List.isEmpty_iff] using hE
      exact Option.some_injective _ h0 ▸ chooseFrom_mem tweets k hne
    · rw [if_pos hE] at h0
      exact absurd h0 (by simp)
  cases ca
  · exact Or.inl (hfb (by simpa [generateAiTweet] using h))
  · cases g with
    | ok content =>
        refine Or.inr ⟨content, ?_⟩
        simpa [generateAiTweet] using h.symm
    | err => exact Or.inl (hfb (by simpa [generateAiTweet] using h))

/-! Section: Lemmas shared by the rate-limit and length claims -/

theorem deliverRound_of_chan2_rateLimited (o : Oracle) (r : Nat)
    (t : String)
    (h1 : o.chan1 r = Chan1Res.okNoData ∨ o.chan1 r = Chan1Res.otherError)
    (h2 : o.chan2 r = Chan2Res.rateLimited) :
    deliverRound o r t =
      (RoundRes.limited, [Event.attempt 1 t, Event.attempt 2 t]) := by
  rcases h1 with h1 | h1 <;> simp [deliverRound, h1, h2]

theorem backoff_of_round0_limited (o : Oracle) (tweets : List String)
    (hne : tweets ≠ [])
    (hlim : (deliverRound o 0 (chooseFrom tweets (o.pick 0))).1 =
      RoundRes.limited) :
    ∃ d, Event.sleep 1 d ∈ (postTweet o tweets).2 := by
  have hE : tweets.isEmpty = false := by
    simpa [List.isEmpty_iff] using hne
  refine ⟨backoffTime 1 (o.jitter 1), ?_⟩
  unfold postTweet
  rw [if_neg (by simp [hE])]
  have hd1 : (deliverRound o 0
      (retryStart o tweets 0 (chooseFrom tweets (o.pick 0))
        (List.insert (chooseFrom tweets (o.pick 0)) [])).1).1 =
      RoundRes.limited := by
    rw [retryStart_zero]
    exact hlim
  rw [postTweetAux_step_limited o tweets maxRetries 0 _ _ _ hd1]
  rw [show maxRetries = 4 + 1 from rfl]
  exact sleep_one_mem_aux o tweets 4 _ _ _

theorem postTweet_attempt_corpus (o : Oracle) (tweets : List String)
    (c : Nat) (m : String)
    (hm : Event.attempt c m ∈ (postTweet o tweets).2) : m ∈ tweets := by
  rcases eq_or_ne tweets [] with hnil | hne
  · subst hnil
    simp [postTweet] at hm
  · have hE : tweets.isEmpty = false := by
      simpa [List.isEmpty_iff] using hne
    unfold postTweet at hm
    rw [if_neg (by simp [hE])] at hm
    exact postTweetAux_attempt o tweets hne (maxRetries + 1) 0
      (chooseFrom tweets (o.pick 0))
      (List.insert (chooseFrom tweets (o.pick 0)) []) []
      (chooseFrom_mem tweets (o.pick 0) hne) (by simp) c m hm

/-! Section: Claim C1 -/

/-- Claim C1 (evaluation at the failing input): with corpus `["A"]` and
both channels failing with non-rate-limit errors in the first round, the
claim expects `post_tweet` to return normally with `AllChannelsFailed`
and no backoff.  The code instead reaches line 205, where `str(e)` reads
the local `e` that Python 3 unbound at the end of the `except` block, so
an `UnboundLocalError` escapes the call (after both channels were tried
and before any sleep). -/
theorem c1_first_round_failure_raises :
    postTweet oBothAuthFail ["A"] =
      (PostOutcome.unboundLocalError,
        [Event.attempt 1 "A", Event.attempt 2 "A"]) ∧
    hasAnySleep (postTweet oBothAuthFail ["A"]).2 = false := by
  decide

/-! Section: Claim C2 -/

/-- Claim C2, amended: in `post_tweet` a rate-limit failure from either
channel makes the whole round rate-limited and leads to the backoff loop
(a retry-round-1 sleep occurs).  A rich-channel rate limit aborts the
channel loop before the legacy channel is tried with the same message; a
legacy-channel rate limit (reached after a rich-channel fall-through)
likewise ends the round as rate-limited.  In `post_ai_tweet`, however, a
rate-limit failure is treated like any other failure: the legacy channel
is tried with the same message in the same round and no backoff or retry
occurs. -/
theorem c2_rate_limit_handling :
    (∀ (o : Oracle) (r : Nat) (t : String),
      o.chan1 r = Chan1Res.rateLimited →
      deliverRound o r t = (RoundRes.limited, [Event.attempt 1 t])) ∧
    (∀ (o : Oracle) (r : Nat) (t : String),
      (o.chan1 r = Chan1Res.okNoData ∨ o.chan1 r = Chan1Res.otherError) →
      o.chan2 r = Chan2Res.rateLimited →
      deliverRound o r t =
        (RoundRes.limited, [Event.attempt 1 t, Event.attempt 2 t])) ∧
    (∀ (o : Oracle) (tweets : List String), tweets ≠ [] →
      o.chan1 0 = Chan1Res.rateLimited →
      ∃ d, Event.sleep 1 d ∈ (postTweet o tweets).2) ∧
    (∀ (o : Oracle) (tweets : List String), tweets ≠ [] →
      (o.chan1 0 = Chan1Res.okNoData ∨ o.chan1 0 = Chan1Res.otherError) →
      o.chan2 0 = Chan2Res.rateLimited →
      ∃ d, Event.sleep 1 d ∈ (postTweet o tweets).2) ∧
    (∀ (o : Oracle) (ca : Bool) (g : GenOutcome) (tweets : List String)
        (t : String),
      generateAiTweet ca g tweets (o.pick 0) = some t →
      o.chan1 0 = Chan1Res.rateLimited →
      ∃ res, postAiTweet o ca g tweets = some res ∧
        Event.attempt 2 t ∈ res.2 ∧ hasAnySleep res.2 = false) := by
  refine ⟨fun o r t h => deliverRound_of_rateLimited o r t h,
    fun o r t h1 h2 => deliverRound_of_chan2_rateLimited o r t h1 h2,
    ?_, ?_, ?_⟩
  · intro o tweets hne h0
    exact backoff_of_round0_limited o tweets hne
      (by rw [deliverRound_of_rateLimited o 0 _ h0])
  · intro o tweets hne h1 h2
    exact backoff_of_round0_limited o tweets hne
      (by rw [deliverRound_of_chan2_rateLimited o 0 _ h1 h2])
  · intro o ca g tweets t hg h0
    unfold postAiTweet
    rw [hg, h0]
    cases h2 : o.chan2 0 with
    | success id =>
        exact ⟨_, rfl, by simp, by simp [hasAnySleep]⟩
    | rateLimited =>
        exact ⟨_, rfl, by simp, by simp [hasAnySleep]⟩
    | otherError =>
        exact ⟨_, rfl, by simp, by simp [hasAnySleep]⟩

/-- Witness for C2: concrete runs in which a rich-channel rate limit
aborts the round after the channel-1 attempt, a legacy-channel rate limit
ends a round in which both channels were attempted, both trigger a
retry-round-1 sleep, and the AI path tries channel 2 with the same
message and never sleeps. -/
theorem c2_rate_limit_handling_check :
    deliverRound oAllLimited 0 "A" =
      (RoundRes.limited, [Event.attempt 1 "A"]) ∧
    deliverRound oLegacyLimited 0 "A" =
      (RoundRes.limited, [Event.attempt 1 "A", Event.attempt 2 "A"]) ∧
    (∃ d, Event.sleep 1 d ∈ (postTweet oAllLimited ["A"]).2) ∧
    (∃ d, Event.sleep 1 d ∈ (postTweet oLegacyLimited ["A"]).2) ∧
    (∃ res, postAiTweet oAllLimited false GenOutcome.err ["A"] = some res ∧
      Event.attempt 2 "A" ∈ res.2 ∧ hasAnySleep res.2 = false) :=
  ⟨c2_rate_limit_handling.1 oAllLimited 0 "A" rfl,
    c2_rate_limit_handling.2.1 oLegacyLimited 0 "A" (Or.inr rfl) rfl,
    c2_rate_limit_handling.2.2.1 oAllLimited ["A"] (by decide) rfl,
    c2_rate_limit_handling.2.2.2.1 oLegacyLimited ["A"] (by decide)
      (Or.inr rfl) rfl,
    c2_rate_limit_handling.2.2.2.2 oAllLimited false GenOutcome.err ["A"]
      "A" (by decide) rfl⟩

/-- Counterexample to C2 as stated: in `post_ai_tweet` (the generated
path) a rate-limit failure from the rich channel does not abort the
channel loop — the legacy channel is invoked with the same message in the
same round — and no backoff occurs (the trace has no sleep). -/
theorem c2_ai_rate_limit_counterexample :
    oAllLimited.chan1 0 = Chan1Res.rateLimited ∧
    postAiTweet oAllLimited false GenOutcome.err ["A"] =
      some (AiOutcome.allFailed "A",
        [Event.attempt 1 "A", Event.attempt 2 "A"]) ∧
    hasAnySleep [Event.attempt 1 "A", Event.attempt 2 "A"] = false := by
  decide

/-! Section: Claim C3 -/

/-- Claim C3, amended: a message produced by a successful AI generation is
truncated to at most 280 characters, but corpus-selected messages
(including generation fallbacks) are passed to the channels unmodified —
every message `post_tweet` hands to a channel is literally a corpus
entry, and every message `post_ai_tweet` hands to a channel is a corpus
entry or a truncated generation — so every message handed to a channel is
bounded by 280 only under the assumption that every corpus entry is. -/
theorem c3_message_length :
    (∀ s : String, (truncate280 s).length ≤ 280) ∧
    (∀ (o : Oracle) (tweets : List String),
      (∀ t ∈ tweets, t.length ≤ 280) →
      ∀ c m, Event.attempt c m ∈ (postTweet o tweets).2 →
        m.length ≤ 280) ∧
    (∀ (o : Oracle) (ca : Bool) (g : GenOutcome) (tweets : List String)
      (res : AiOutcome × List Event),
      (∀ t ∈ tweets, t.length ≤ 280) →
      postAiTweet o ca g tweets = some res →
      ∀ c m, Event.attempt c m ∈ res.2 → m.length ≤ 280) ∧
    (∀ (o : Oracle) (tweets : List String) (c : Nat) (m : String),
      Event.attempt c m ∈ (postTweet o tweets).2 → m ∈ tweets) ∧
    (∀ (o : Oracle) (ca : Bool) (g : GenOutcome) (tweets : List String)
      (res : AiOutcome × List Event) (c : Nat) (m : String),
      postAiTweet o ca g tweets = some res →
      Event.attempt c m ∈ res.2 →
      m ∈ tweets ∨ ∃ s, m = truncate280 (stripWs s)) := by
  refine ⟨truncate280_length, ?_, ?_,
    fun o tweets c m hm => postTweet_attempt_corpus o tweets c m hm,
    fun o ca g tweets res c m hres hm =>
      generateAiTweet_shape ca g tweets (o.pick 0) m
        (postAiTweet_attempt_gen o ca g tweets res c m hres hm)⟩
  · intro o tweets hcorp c m hm
    exact hcorp _ (postTweet_attempt_corpus o tweets c m hm)
  · intro o ca g tweets res hcorp hres c m hm
    exact generateAiTweet_some_length ca g tweets (o.pick 0) m hcorp
      (postAiTweet_attempt_gen o ca g tweets res c m hres hm)

/-- Witness for C3 (amended): a concrete bounded corpus and run in which
the attempted message is within the platform limit, is the corpus entry
itself on the corpus path, and is the truncated generation or a corpus
entry on the AI path. -/
theorem c3_message_length_check :
    ("A" : String).length ≤ 280 ∧
    ("A" : String) ∈ (["A"] : List String) ∧
    (("A" : String) ∈ (["B"] : List String) ∨
      ∃ s, ("A" : String) = truncate280 (stripWs s)) :=
  ⟨c3_message_length.2.1 oFirstOk ["A"] (by decide) 1 "A" (by decide),
    c3_message_length.2.2.2.1 oFirstOk ["A"] 1 "A" (by decide),
    c3_message_length.2.2.2.2 oNoData true (GenOutcome.ok "A") ["B"]
      (AiOutcome.success 2 7 "A",
        [Event.attempt 1 "A", Event.attempt 2 "A"])
      1 "A" (by decide) (by decide)⟩

set_option maxRecDepth 8000 in
/-- Counterexample to C3 as stated: a corpus entry of 281 characters is
passed to the rich channel unmodified. -/
theorem c3_long_corpus_counterexample :
    (postTweet oFirstOk [longTweet]).2 = [Event.attempt 1 longTweet] ∧
      280 < longTweet.length := by
  decide

/-! Section: Claim C4 -/

/-- Claim C4, amended: for every nonempty corpus, `generate_ai_tweet`
never raises — it returns a message for every client availability and
backend outcome, and on any generation failure (client unavailable or
backend error) that message is drawn from the corpus. -/
theorem c4_generate_total_nonempty (ca : Bool) (g : GenOutcome)
    (tweets : List String) (k : Nat) (h : tweets ≠ []) :
    ∃ m, generateAiTweet ca g tweets k = some m ∧
      ((ca = false ∨ g = GenOutcome.err) → m ∈ tweets) := by
  have hE : tweets.isEmpty = false := by
    simpa [List.isEmpty_iff] using h
  have hfb : fallbackChoice tweets k = some (chooseFrom tweets k) := by
    unfold fallbackChoice
    rw [if_neg (by simp [hE])]
  have hmem : chooseFrom tweets k ∈ tweets := chooseFrom_mem tweets k h
  cases ca
  · exact ⟨chooseFrom tweets k, by simpa [generateAiTweet] using hfb,
      fun _ => hmem⟩
  · cases g with
    | ok content =>
        refine ⟨truncate280 (stripWs content), by simp [generateAiTweet], ?_⟩
        rintro (h | h) <;> simp at h
    | err =>
        exact ⟨chooseFrom tweets k, by simpa [generateAiTweet] using hfb,
          fun _ => hmem⟩

/-- Witness for C4 (amended): with corpus `["A"]`, an unavailable client
and a failing backend, generation returns the corpus message. -/
theorem c4_generate_total_nonempty_check :
    ∃ m, generateAiTweet false GenOutcome.err ["A"] 0 = some m ∧
      ((false = false ∨ GenOutcome.err = GenOutcome.err) → m ∈ ["A"]) :=
  c4_generate_total_nonempty false GenOutcome.err ["A"] 0 (by decide)

/-- Counterexample to C4 as stated: on an empty corpus the fallback
`random.choice(self.tweets)` raises `IndexError`, both when the client is
unavailable and when the backend errors, so the exception escapes
`generate_ai_tweet`. -/
theorem c4_empty_corpus_counterexample :
    generateAiTweet true GenOutcome.err [] 0 = none ∧
    generateAiTweet false (GenOutcome.ok "hi") [] 0 = none :=
  ⟨rfl, rfl⟩

/-! Section: Claim C5 -/

/-- Claim C5, amended: when `UsedSet` does not yet cover the corpus, the
retry selection avoids every used message — in particular the message of
the immediately preceding round.  (After a reset of `UsedSet` the new
selection may repeat the preceding message even when the corpus has two
distinct entries; see the counterexample.) -/
theorem c5_no_consecutive_repeat (tweets used : List String) (k : Nat)
    (prev : String) (hprev : prev ∈ used)
    (h : ∃ t ∈ tweets, t ∉ used) :
    (selectRetry tweets used k).1 ≠ prev := by
  intro he
  exact selectRetry_not_mem tweets used k h (he ▸ hprev)

/-- Witness for C5 (amended): with corpus `["A", "B"]` and used set
`{"A"}`, the retry selection differs from the previous message `"A"`. -/
theorem c5_no_consecutive_repeat_check :
    (selectRetry ["A", "B"] ["A"] 0).1 ≠ "A" :=
  c5_no_consecutive_repeat ["A", "B"] ["A"] 0 "A" (by decide)
    ⟨"B", by decide, by decide⟩

/-- Counterexample to C5 as stated: corpus `["A", "B"]` (two distinct
entries), channel 1 always rate-limited.  Retry round 1 selects `"B"`;
before round 2 the used set covers the corpus and is reset, and round 2
selects `"B"` again — the same message as the immediately preceding
round. -/
theorem c5_reset_repeat_counterexample :
    ("A" : String) ≠ "B" ∧
    Event.select 1 "B" ∈ (postTweet oAllLimited ["A", "B"]).2 ∧
    Event.select 2 "B" ∈ (postTweet oAllLimited ["A", "B"]).2 := by
  decide

/-! Section: Claim C6 -/

/-- Claim C6: the retry selection of `post_tweet` (lines 161-169) never
returns a message of the current `UsedSet` unless `UsedSet` covers the
whole corpus; in the covering case `UsedSet` is cleared before selecting
(the updated set is exactly the singleton of the selection), a candidate
from the corpus is always found, and the selection is added to the
updated `UsedSet`. -/
theorem c6_used_set_invariant (tweets used : List String) (k : Nat)
    (h : tweets ≠ []) :
    (selectRetry tweets used k).1 ∈ tweets ∧
    (¬ (∀ t ∈ tweets, t ∈ used) → (selectRetry tweets used k).1 ∉ used) ∧
    ((∀ t ∈ tweets, t ∈ used) →
      (selectRetry tweets used k).2 = [(selectRetry tweets used k).1]) ∧
    (selectRetry tweets used k).1 ∈ (selectRetry tweets used k).2 := by
  refine ⟨selectRetry_mem tweets used k h, ?_,
    fun hc => selectRetry_covered tweets used k hc,
    selectRetry_self_mem tweets used k⟩
  intro hnc
  apply selectRetry_not_mem
  push_neg at hnc
  exact hnc

/-- Witness for C6: with corpus `["A", "B"]` and used set `{"A"}`, the
selection is a corpus member outside the used set and lands in the
updated used set. -/
theorem c6_used_set_invariant_check :
    (selectRetry ["A", "B"] ["A"] 0).1 ∈ (["A", "B"] : List String) ∧
    (selectRetry ["A", "B"] ["A"] 0).1 ∈ (selectRetry ["A", "B"] ["A"] 0).2 :=
  ⟨(c6_used_set_invariant ["A", "B"] ["A"] 0 (by decide)).1,
    (c6_used_set_invariant ["A", "B"] ["A"] 0 (by decide)).2.2.2⟩

/-! Section: Claim C7 -/

/-- Claim C7: every run of `post_tweet` performs at most
`maxRetries + 1 = 6` delivery rounds (passes through the channel loop),
so the retry loop always terminates. -/
theorem c7_rounds_bounded (o : Oracle) (tweets : List String) :
    countRounds (postTweet o tweets).2 ≤ maxRetries + 1 := by
  unfold postTweet
  cases hE : tweets.isEmpty
  · simp only [Bool.false_eq_true, if_false]
    have h := postTweetAux_countRounds o tweets (maxRetries + 1) 0
      (chooseFrom tweets (o.pick 0))
      (List.insert (chooseFrom tweets (o.pick 0)) []) []
    simpa [countRounds] using h
  · simp [countRounds]

/-! Section: Claim C8 -/

/-- Claim C8: every sleep of retry round `r` in a `post_tweet` trace has
`r ≥ 1` and delay exactly `initialBackoff * 2 ^ (r - 1)` plus the jitter
sample of that round; when the jitter lies in `[0, jitterMax]` (as
`random.uniform(0, 10)` guarantees) the delay lies in
`[60 * 2 ^ (r - 1), 60 * 2 ^ (r - 1) + 10]`, with no upper cap. -/
theorem c8_backoff_interval (o : Oracle) (tweets : List String) (r : Nat)
    (d : ℚ) (hmem : Event.sleep r d ∈ (postTweet o tweets).2)
    (h0 : 0 ≤ o.jitter r) (h1 : o.jitter r ≤ jitterMax) :
    1 ≤ r ∧ d = initialBackoff * 2 ^ (r - 1) + o.jitter r ∧
      initialBackoff * 2 ^ (r - 1) ≤ d ∧
      d ≤ initialBackoff * 2 ^ (r - 1) + jitterMax := by
  have hfrom : 1 ≤ r ∧ d = backoffTime r (o.jitter r) := by
    rcases eq_or_ne tweets [] with hnil | hne
    · subst hnil
      simp [postTweet] at hmem
    · have hE : tweets.isEmpty = false := by
        simpa [List.isEmpty_iff] using hne
      unfold postTweet at hmem
      rw [if_neg (by simp [hE])] at hmem
      exact postTweetAux_sleep o tweets (maxRetries + 1) 0 _ _ []
        (by simp) r d hmem
  obtain ⟨hr, hd⟩ := hfrom
  rw [backoffTime] at hd
  refine ⟨hr, hd, ?_, ?_⟩
  · rw [hd]
    exact le_add_of_nonneg_right h0
  · rw [hd]
    exact add_le_add_left h1 _

/-- Witness for C8: a concrete rate-limited run with jitter sample 5, in
which the retry-round-1 sleep is present and satisfies the bounds. -/
theorem c8_backoff_interval_check :
    1 ≤ 1 ∧
    backoffTime 1 (oLimJitter.jitter 1) =
      initialBackoff * 2 ^ (1 - 1) + oLimJitter.jitter 1 ∧
    initialBackoff * 2 ^ (1 - 1) ≤ backoffTime 1 (oLimJitter.jitter 1) ∧
    backoffTime 1 (oLimJitter.jitter 1) ≤
      initialBackoff * 2 ^ (1 - 1) + jitterMax :=
  c8_backoff_interval oLimJitter ["A"] 1 (backoffTime 1 (oLimJitter.jitter 1))
    (List.mem_cons_of_mem _ (List.mem_cons_self _ _))
    (by norm_num [oLimJitter]) (by norm_num [oLimJitter, jitterMax])

/-! Section: Claim C9 -/

/-- Claim C9, amended: an empty corpus is not fatal at startup.  The
loader returns an empty corpus after only a warning, and each posting
cycle then detects the empty corpus and returns early — normally, with an
empty trace — rather than failing with an `EmptyCorpus` error. -/
theorem c9_empty_corpus_behaviour (o : Oracle) (lines : List String)
    (h : ∀ l ∈ lines, stripWs l = "") :
    loadTweets (some lines) = LoadResult.ok [] ∧
    postTweet o [] = (PostOutcome.noTweets, []) := by
  constructor
  · have hnil : lines.filterMap
        (fun l => if stripWs l = "" then none else some (stripWs l)) = [] := by
      rw [List.filterMap_eq_nil_iff]
      intro l hl
      simp [h l hl]
    simp [loadTweets, hnil]
  · simp [postTweet]

/-- Witness for C9 (amended): a file of one blank line loads as the empty
corpus and the posting cycle returns early. -/
theorem c9_empty_corpus_behaviour_check :
    loadTweets (some [" "]) = LoadResult.ok [] ∧
    postTweet oFirstOk [] = (PostOutcome.noTweets, []) :=
  c9_empty_corpus_behaviour oFirstOk [" "] (by decide)

/-- Counterexample to C9 as stated: with a whitespace-only corpus file,
startup succeeds (the loader returns `ok []`, no `EmptyCorpus` failure),
and the posting cycle does run against the empty corpus, returning
normally. -/
theorem c9_not_fatal_counterexample :
    loadTweets (some ["   ", ""]) = LoadResult.ok [] ∧
    postTweet oBothAuthFail [] = (PostOutcome.noTweets, []) := by
  decide

/-! Section: Claim C10 -/

/-- Claim C10: when the rich channel's post call returns normally but the
response is falsy or lacks a `data` attribute, the controller does not
return success and also invokes the legacy channel with the same message
in the same round — in both `post_tweet` and `post_ai_tweet` — so a
single invocation can deliver one message through both channels. -/
theorem c10_double_delivery :
    oNoData.chan1 0 = Chan1Res.okNoData ∧
    postTweet oNoData ["A"] =
      (PostOutcome.success 2 7 "A",
        [Event.attempt 1 "A", Event.attempt 2 "A"]) ∧
    postAiTweet oNoData true (GenOutcome.ok "A") ["B"] =
      some (AiOutcome.success 2 7 "A",
        [Event.attempt 1 "A", Event.attempt 2 "A"]) := by
  decide

end TweetForge
